import Mathlib

/-!
Verification of the configuration and client-construction logic of the
mySupabase repository (src/config.py, src/supabase_client.py,
src/download_supabase_data.py), via a shallow embedding in Lean 4.

The process environment is modelled as a function `String → Option String`
(`os.getenv` returns the value when the variable is set, `None` otherwise).
Python truthiness on an optional string (`None` and `""` are falsy, every
other string truthy) is modelled by `pyTruthy`. A raised `ValueError`
becomes `.error msg` in an `Except`; the external SDK factory
`create_client` is modelled as a pure constructor recording its arguments,
and each factory additionally returns the trace of calls it made to that
external factory, so that "performs no network call / does not invoke the
factory" is a statement about the trace.
-/

/-- Python truthiness of an `Optional[str]`: `None` and the empty string are
falsy, every non-empty string is truthy. -/
def pyTruthy : Option String → Bool
  | none => false
  | some s => !s.isEmpty

/-- The Configuration Record of `src/config.py` (`class SupabaseConfig`):
five optional string fields. -/
structure SupabaseConfig where
  url : Option String
  anon_key : Option String
  service_role_key : Option String
  jwt_secret : Option String
  database_url : Option String
deriving Repr, DecidableEq

/-- `SupabaseConfig.__init__` (src/config.py lines 14-19): reads the five
named environment variables, a missing variable yielding `none`. -/
def SupabaseConfig.fromEnv (env : String → Option String) : SupabaseConfig :=
  { url := env "SUPABASE_URL"
    anon_key := env "SUPABASE_ANON_KEY"
    service_role_key := env "SUPABASE_SERVICE_ROLE_KEY"
    jwt_secret := env "SUPABASE_JWT_SECRET"
    database_url := env "DATABASE_URL" }

/-- `SupabaseConfig.validate` (src/config.py lines 21-24):
`all([self.url, self.anon_key])` under Python truthiness. -/
def SupabaseConfig.validate (c : SupabaseConfig) : Bool :=
  pyTruthy c.url && pyTruthy c.anon_key

/-- `SupabaseConfig.get_connection_info` (src/config.py lines 26-34): the
five fields as an association list keyed by the dict keys of the source. -/
def SupabaseConfig.get_connection_info (c : SupabaseConfig) :
    List (String × Option String) :=
  [("url", c.url),
   ("anon_key", c.anon_key),
   ("service_role_key", c.service_role_key),
   ("jwt_secret", c.jwt_secret),
   ("database_url", c.database_url)]

/-- The exact names of the five environment variables consumed by
`SupabaseConfig.__init__`. -/
def envVarNames : List String :=
  ["SUPABASE_URL", "SUPABASE_ANON_KEY", "SUPABASE_SERVICE_ROLE_KEY",
   "SUPABASE_JWT_SECRET", "DATABASE_URL"]

/-- Pairing of each `get_connection_info` key with the environment variable
the corresponding field is read from. -/
def fieldEnvPairs : List (String × String) :=
  [("url", "SUPABASE_URL"),
   ("anon_key", "SUPABASE_ANON_KEY"),
   ("service_role_key", "SUPABASE_SERVICE_ROLE_KEY"),
   ("jwt_secret", "SUPABASE_JWT_SECRET"),
   ("database_url", "DATABASE_URL")]

/-- An opaque client handle as constructed by the external SDK factory:
just the endpoint and the credential it was built from. -/
structure Client where
  url : Option String
  key : Option String
deriving Repr, DecidableEq

/-- A recorded invocation of the external factory `create_client(url, key)`. -/
structure FactoryCall where
  url : Option String
  key : Option String
deriving Repr, DecidableEq

/-- The external SDK factory `create_client(url, key)` (an external
collaborator: it performs no validation of its own in this model). -/
def create_client (url key : Option String) : Client :=
  { url := url, key := key }

/-- `create_supabase_client` (src/supabase_client.py lines 8-22): raises
`ValueError` when `config.validate()` is false, otherwise calls
`create_client(config.url, config.anon_key)`. -/
def create_supabase_client (config : SupabaseConfig) :
    Except String Client × List FactoryCall :=
  if config.validate = false then
    (.error "Supabase 配置不完整，请检查环境变量", [])
  else
    (.ok (create_client config.url config.anon_key),
     [{ url := config.url, key := config.anon_key }])

/-- `create_supabase_admin_client` (src/supabase_client.py lines 24-38):
raises `ValueError` when `config.service_role_key` is falsy, otherwise calls
`create_client(config.url, config.service_role_key)`. -/
def create_supabase_admin_client (config : SupabaseConfig) :
    Except String Client × List FactoryCall :=
  if pyTruthy config.service_role_key = false then
    (.error "Service role key 未配置", [])
  else
    (.ok (create_client config.url config.service_role_key),
     [{ url := config.url, key := config.service_role_key }])

/-- The module-level statement `supabase: Client = create_supabase_client()`
(src/supabase_client.py line 41), run eagerly at import time against the
process-wide configuration. -/
def module_level_supabase (config : SupabaseConfig) : Except String Client :=
  (create_supabase_client config).1

/-- A minimal JSON value type for the snapshot artifact written by
src/download_supabase_data.py. -/
inductive Json where
  | str : String → Json
  | bool : Bool → Json
  | null : Json
  | arr : List Json → Json
  | obj : List (String × Json) → Json
deriving Repr

/-- A database row as returned by the PostgREST query: a mapping from column
names to JSON values. -/
abbrev Row := List (String × Json)

/-- One entry of `tables_info` in `get_database_tables`
(src/download_supabase_data.py lines 76-81): the dict
`{'table_name': ..., 'exists': True, 'sample_data': ...}`; the Python dict
key `exists` is rendered here as the field `existsFlag`. -/
structure TableInfo where
  table_name : String
  existsFlag : Bool
  sample_data : List Row
deriving Repr

/-- The hardcoded probe list `common_tables` of `get_database_tables`
(src/download_supabase_data.py line 69). -/
def common_tables : List String :=
  ["profiles", "users", "posts", "comments", "settings"]

/-- The `for table_name in common_tables` loop of `get_database_tables`
(src/download_supabase_data.py lines 71-84): `probe t` is the outcome of
`supabase.table(t).select('*').limit(1).execute()`, giving either a raised
exception (`.error`) or the `response.data` field (`none` models
`data is None`). A raised exception hits `except Exception: continue`; a
`None` data field fails the `if response.data is not None` guard; otherwise
the entry is appended with `sample_data = response.data[:1] if response.data
else []`. -/
def probeLoop (probe : String → Except String (Option (List Row))) :
    List String → List TableInfo
  | [] => []
  | t :: rest =>
    match probe t with
    | .error _ => probeLoop probe rest
    | .ok none => probeLoop probe rest
    | .ok (some data) =>
        { table_name := t, existsFlag := true,
          sample_data := if data.isEmpty then [] else data.take 1 }
          :: probeLoop probe rest

/-- `get_database_tables` (src/download_supabase_data.py lines 49-91):
probes the hardcoded table names and collects the accessible ones. -/
def get_database_tables (probe : String → Except String (Option (List Row))) :
    List TableInfo :=
  probeLoop probe common_tables

/-- The contribution of a single probed name to `tables_info`: `none` when
the probe raises or returns no data (the name is skipped), otherwise the
appended entry. -/
def probeEntry (probe : String → Except String (Option (List Row)))
    (t : String) : Option TableInfo :=
  match probe t with
  | .error _ => none
  | .ok none => none
  | .ok (some data) =>
      some { table_name := t, existsFlag := true,
             sample_data := if data.isEmpty then [] else data.take 1 }

/-- The JSON rendering of one `tables_info` entry, using the dict keys of
the source. -/
def TableInfo.toJson (ti : TableInfo) : Json :=
  .obj [("table_name", .str ti.table_name),
        ("exists", .bool ti.existsFlag),
        ("sample_data", .arr (ti.sample_data.map Json.obj))]

/-- `save_database_schema` (src/download_supabase_data.py lines 103-111):
the `schema_data` JSON value written to database_schema.json. -/
def save_database_schema (tables_info : List TableInfo)
    (buckets_info : List Json) : Json :=
  .obj [("tables", .arr (tables_info.map TableInfo.toJson)),
        ("storage_buckets", .arr buckets_info),
        ("metadata", .obj
          [("generated_at", .str "2025-12-29"),
           ("note", .str "通过Supabase Python SDK获取的基础信息")])]

/-- The top-level keys of a JSON object (empty for non-objects). -/
def Json.objKeys : Json → List String
  | .obj kvs => kvs.map Prod.fst
  | _ => []

/-- Field access on a JSON object. -/
def Json.getKey : Json → String → Option Json
  | .obj kvs, k => kvs.lookup k
  | _, _ => none

/-- `test_supabase_connection` (src/download_supabase_data.py lines 36-47):
its input is the outcome of the `supabase.auth.admin.list_users(limit=1)`
probe (success value or raised exception); the function returns `True` on
success and also `True` in the `except` branch. -/
def test_supabase_connection {α : Type} (outcome : Except String α) : Bool :=
  match outcome with
  | .ok _ => true
  | .error _ => true

/-- The guard `if not test_supabase_connection(supabase): return` in `main`
(src/download_supabase_data.py lines 193-195): `true` exactly when `main`
would abort at the connection-test step. -/
def main_aborts_at_connection_test {α : Type} (outcome : Except String α) :
    Bool :=
  !test_supabase_connection outcome

/-- A concrete probe used in witnesses: `profiles` raises, `users` answers
with one row, everything else reports data `None`. -/
def probeW : String → Except String (Option (List Row)) :=
  fun t =>
    if t = "profiles" then .error "timeout"
    else if t = "users" then .ok (some [[("id", Json.str "1")]])
    else .ok none

theorem isEmpty_false_iff_ne (s : String) : s.isEmpty = false ↔ s ≠ "" := by
  rw [← Bool.not_eq_true]
  exact not_congr (String.isEmpty_iff s)

theorem probeLoop_eq_filterMap (probe : String → Except String (Option (List Row)))
    (l : List String) :
    probeLoop probe l = l.filterMap (probeEntry probe) := by
  induction l with
  | nil => rfl
  | cons t rest ih =>
    cases h : probe t with
    | error e => simp [probeLoop, probeEntry, List.filterMap_cons, h, ih]
    | ok d =>
      cases d with
      | none => simp [probeLoop, probeEntry, List.filterMap_cons, h, ih]
      | some data => simp [probeLoop, probeEntry, List.filterMap_cons, h, ih]

theorem probeEntry_table_name (probe : String → Except String (Option (List Row)))
    (a : String) (ti : TableInfo) (h : probeEntry probe a = some ti) :
    ti.table_name = a := by
  cases hp : probe a with
  | error e => simp [probeEntry, hp] at h
  | ok d =>
    cases d with
    | none => simp [probeEntry, hp] at h
    | some data =>
      simp [probeEntry, hp] at h
      rw [← h]

theorem probeEntry_sample_le_one (probe : String → Except String (Option (List Row)))
    (a : String) (ti : TableInfo) (h : probeEntry probe a = some ti) :
    ti.sample_data.length ≤ 1 := by
  cases hp : probe a with
  | error e => simp [probeEntry, hp] at h
  | ok d =>
    cases d with
    | none => simp [probeEntry, hp] at h
    | some data =>
      simp [probeEntry, hp] at h
      rw [← h]
      by_cases hd : data.isEmpty
      · simp [hd]
      · simp [hd, List.length_take]

/-- C1: `is_valid(R)` is true iff `endpoint_url` and `anon_key` are both
present and non-empty, and the result is independent of the values of
`service_role_key`, `jwt_secret` and `database_url`. -/
theorem validate_iff_url_and_anon_key_nonempty (c : SupabaseConfig) :
    (c.validate = true ↔
      ((∃ s, c.url = some s ∧ s ≠ "") ∧ (∃ s, c.anon_key = some s ∧ s ≠ ""))) ∧
    (∀ k j d, SupabaseConfig.validate
        { c with service_role_key := k, jwt_secret := j, database_url := d }
      = c.validate) := by
  constructor
  · unfold SupabaseConfig.validate pyTruthy
    cases hu : c.url with
    | none => simp
    | some s =>
      cases ha : c.anon_key with
      | none => simp
      | some t =>
        simp only [Bool.and_eq_true, Bool.not_eq_true', Option.some.injEq]
        constructor
        · rintro ⟨hs, ht⟩
          exact ⟨⟨s, rfl, (isEmpty_false_iff_ne s).mp hs⟩,
                 ⟨t, rfl, (isEmpty_false_iff_ne t).mp ht⟩⟩
        · rintro ⟨⟨s', hs', hne⟩, ⟨t', ht', hne'⟩⟩
          cases hs'
          cases ht'
          exact ⟨(isEmpty_false_iff_ne s).mpr hne,
                 (isEmpty_false_iff_ne t).mpr hne'⟩
  · intro k j d
    rfl

/-- Witness for C1: a record with non-empty `url` and `anon_key` is valid,
and flipping the other three fields leaves validity unchanged. -/
theorem validate_iff_url_and_anon_key_nonempty_witness :
    (SupabaseConfig.validate
        { url := some "https://x.supabase.co", anon_key := some "anon",
          service_role_key := none, jwt_secret := none,
          database_url := none } = true ↔
      ((∃ s, (some "https://x.supabase.co" : Option String) = some s ∧ s ≠ "") ∧
       (∃ s, (some "anon" : Option String) = some s ∧ s ≠ ""))) ∧
    SupabaseConfig.validate
        { url := some "https://x.supabase.co", anon_key := some "anon",
          service_role_key := some "srk", jwt_secret := some "jwt",
          database_url := some "db" }
      = SupabaseConfig.validate
        { url := some "https://x.supabase.co", anon_key := some "anon",
          service_role_key := none, jwt_secret := none,
          database_url := none } :=
  ⟨(validate_iff_url_and_anon_key_nonempty
      { url := some "https://x.supabase.co", anon_key := some "anon",
        service_role_key := none, jwt_secret := none,
        database_url := none }).1,
   (validate_iff_url_and_anon_key_nonempty
      { url := some "https://x.supabase.co", anon_key := some "anon",
        service_role_key := none, jwt_secret := none,
        database_url := none }).2 (some "srk") (some "jwt") (some "db")⟩

/-- C4: after `load()` (here `SupabaseConfig.fromEnv`), `describe()` (here
`get_connection_info`) returns exactly the five field names, each mapped to
the environment value unchanged when the variable is set and to the explicit
absent marker `none` when it is not set; never to the literal strings
`"None"` or `"undefined"` for an unset variable. -/
theorem load_then_describe_roundtrip (env : String → Option String) :
    ((SupabaseConfig.fromEnv env).get_connection_info).map Prod.fst
      = fieldEnvPairs.map Prod.fst ∧
    (∀ fk en, (fk, en) ∈ fieldEnvPairs →
      ((SupabaseConfig.fromEnv env).get_connection_info).lookup fk
        = some (env en)) ∧
    (∀ fk en, (fk, en) ∈ fieldEnvPairs → env en = none →
      ((SupabaseConfig.fromEnv env).get_connection_info).lookup fk = some none ∧
      ((SupabaseConfig.fromEnv env).get_connection_info).lookup fk
        ≠ some (some "None") ∧
      ((SupabaseConfig.fromEnv env).get_connection_info).lookup fk
        ≠ some (some "undefined")) := by
  refine ⟨rfl, ?_, ?_⟩
  · intro fk en hmem
    fin_cases hmem <;>
      simp [SupabaseConfig.fromEnv, SupabaseConfig.get_connection_info,
        List.lookup]
  · intro fk en hmem habs
    fin_cases hmem <;>
      simp_all [SupabaseConfig.fromEnv, SupabaseConfig.get_connection_info,
        List.lookup]

/-- Witness for C4 on a concrete environment with `SUPABASE_URL` set and
everything else unset. -/
theorem load_then_describe_roundtrip_witness :
    ("url", "SUPABASE_URL") ∈ fieldEnvPairs ∧
    ((SupabaseConfig.fromEnv
        (fun n => if n = "SUPABASE_URL" then some "https://x.supabase.co" else none)
      ).get_connection_info).lookup "url" = some (some "https://x.supabase.co") ∧
    ((SupabaseConfig.fromEnv
        (fun n => if n = "SUPABASE_URL" then some "https://x.supabase.co" else none)
      ).get_connection_info).lookup "anon_key" = some none :=
  ⟨by decide,
   (load_then_describe_roundtrip
      (fun n => if n = "SUPABASE_URL" then some "https://x.supabase.co" else none)
    ).2.1 "url" "SUPABASE_URL" (by decide),
   ((load_then_describe_roundtrip
      (fun n => if n = "SUPABASE_URL" then some "https://x.supabase.co" else none)
    ).2.2 "anon_key" "SUPABASE_ANON_KEY" (by decide) rfl).1⟩

/-- C5: `load()` reads exactly the five named environment variables: the
constructed record is determined field-by-field by their values, and two
environments agreeing on those five names yield the same record (no other
variable is consulted); construction is total and never fails. -/
theorem load_reads_exactly_five_vars (env env2 : String → Option String) :
    SupabaseConfig.fromEnv env =
      { url := env "SUPABASE_URL"
        anon_key := env "SUPABASE_ANON_KEY"
        service_role_key := env "SUPABASE_SERVICE_ROLE_KEY"
        jwt_secret := env "SUPABASE_JWT_SECRET"
        database_url := env "DATABASE_URL" } ∧
    ((∀ n ∈ envVarNames, env n = env2 n) →
      SupabaseConfig.fromEnv env = SupabaseConfig.fromEnv env2) := by
  refine ⟨rfl, fun h => ?_⟩
  have h1 := h "SUPABASE_URL" (by decide)
  have h2 := h "SUPABASE_ANON_KEY" (by decide)
  have h3 := h "SUPABASE_SERVICE_ROLE_KEY" (by decide)
  have h4 := h "SUPABASE_JWT_SECRET" (by decide)
  have h5 := h "DATABASE_URL" (by decide)
  simp [SupabaseConfig.fromEnv, h1, h2, h3, h4, h5]

/-- Witness for C5: two concrete environments agreeing on the five names
(but differing elsewhere) produce identical records. -/
theorem load_reads_exactly_five_vars_witness :
    SupabaseConfig.fromEnv (fun n => if n = "OTHER_VAR" then some "a" else none)
      = SupabaseConfig.fromEnv (fun n => if n = "OTHER_VAR" then some "b" else none) :=
  (load_reads_exactly_five_vars
      (fun n => if n = "OTHER_VAR" then some "a" else none)
      (fun n => if n = "OTHER_VAR" then some "b" else none)).2
    (by decide)

/-- C2: whenever the record is invalid, `create_supabase_client` fails with
the incomplete-configuration `ValueError` message, invokes the external
factory zero times (so no network call), and never returns a client. -/
theorem create_supabase_client_invalid_fails (c : SupabaseConfig)
    (h : c.validate = false) :
    (create_supabase_client c).1 = .error "Supabase 配置不完整，请检查环境变量" ∧
    (create_supabase_client c).2 = [] ∧
    ∀ cl : Client, (create_supabase_client c).1 ≠ .ok cl := by
  refine ⟨?_, ?_, ?_⟩ <;> simp [create_supabase_client, h]

/-- Witness for C2: the record with `endpoint_url` present but `anon_key`
absent is rejected without a factory call. -/
theorem create_supabase_client_invalid_fails_witness :
    SupabaseConfig.validate
        { url := some "https://x.supabase.co", anon_key := none,
          service_role_key := some "srk", jwt_secret := none,
          database_url := none } = false ∧
    (create_supabase_client
        { url := some "https://x.supabase.co", anon_key := none,
          service_role_key := some "srk", jwt_secret := none,
          database_url := none }).1
      = .error "Supabase 配置不完整，请检查环境变量" :=
  ⟨by decide,
   (create_supabase_client_invalid_fails
      { url := some "https://x.supabase.co", anon_key := none,
        service_role_key := some "srk", jwt_secret := none,
        database_url := none } (by decide)).1⟩

/-- C3: `create_supabase_admin_client` fails exactly when `service_role_key`
is absent (falsy), regardless of `url` and `anon_key`; when the key is
present it constructs the privileged client without re-checking validity of
the base record (in particular it succeeds even on an invalid record). -/
theorem admin_client_gated_only_on_service_role_key (c : SupabaseConfig) :
    ((∃ e, (create_supabase_admin_client c).1 = .error e) ↔
      pyTruthy c.service_role_key = false) ∧
    (pyTruthy c.service_role_key = true →
      (create_supabase_admin_client c).1
        = .ok (create_client c.url c.service_role_key)) := by
  constructor
  · constructor
    · rintro ⟨e, he⟩
      by_contra hk
      have hk' : pyTruthy c.service_role_key = true := by
        cases h : pyTruthy c.service_role_key
        · exact absurd h hk
        · rfl
      simp [create_supabase_admin_client, hk'] at he
    · intro hk
      exact ⟨"Service role key 未配置", by simp [create_supabase_admin_client, hk]⟩
  · intro hk
    simp [create_supabase_admin_client, hk]

/-- Witness for C3: with `url` and `anon_key` both present but
`service_role_key` absent the admin factory fails, and on a record with only
`service_role_key` present (an invalid base record) it succeeds. -/
theorem admin_client_gated_only_on_service_role_key_witness :
    (∃ e, (create_supabase_admin_client
        { url := some "https://x.supabase.co", anon_key := some "anon",
          service_role_key := none, jwt_secret := none,
          database_url := none }).1 = .error e) ∧
    (create_supabase_admin_client
        { url := none, anon_key := none,
          service_role_key := some "srk", jwt_secret := none,
          database_url := none }).1
      = .ok (create_client none (some "srk")) :=
  ⟨(admin_client_gated_only_on_service_role_key
      { url := some "https://x.supabase.co", anon_key := some "anon",
        service_role_key := none, jwt_secret := none,
        database_url := none }).1.mpr (by decide),
   (admin_client_gated_only_on_service_role_key
      { url := none, anon_key := none,
        service_role_key := some "srk", jwt_secret := none,
        database_url := none }).2 (by decide)⟩

/-- C6: on a valid record whose `service_role_key` is also present, both
factories succeed, both client handles carry the same `endpoint_url`
(`config.url`), the anonymous client carries `anon_key` as credential and
the admin client carries `service_role_key`. -/
theorem anon_and_admin_clients_share_endpoint (c : SupabaseConfig)
    (hv : c.validate = true) (hs : pyTruthy c.service_role_key = true) :
    ∃ anon admin : Client,
      (create_supabase_client c).1 = .ok anon ∧
      (create_supabase_admin_client c).1 = .ok admin ∧
      anon.url = c.url ∧ admin.url = c.url ∧
      anon.key = c.anon_key ∧ admin.key = c.service_role_key := by
  refine ⟨create_client c.url c.anon_key,
          create_client c.url c.service_role_key, ?_, ?_, rfl, rfl, rfl, rfl⟩
  · simp [create_supabase_client, hv]
  · simp [create_supabase_admin_client, hs]

/-- Witness for C6 on a concrete fully-populated record. -/
theorem anon_and_admin_clients_share_endpoint_witness :
    SupabaseConfig.validate
        { url := some "https://x.supabase.co", anon_key := some "anon",
          service_role_key := some "srk", jwt_secret := some "jwt",
          database_url := some "postgres://db" } = true ∧
    ∃ anon admin : Client,
      (create_supabase_client
          { url := some "https://x.supabase.co", anon_key := some "anon",
            service_role_key := some "srk", jwt_secret := some "jwt",
            database_url := some "postgres://db" }).1 = .ok anon ∧
      (create_supabase_admin_client
          { url := some "https://x.supabase.co", anon_key := some "anon",
            service_role_key := some "srk", jwt_secret := some "jwt",
            database_url := some "postgres://db" }).1 = .ok admin ∧
      anon.url = some "https://x.supabase.co" ∧
      admin.url = some "https://x.supabase.co" ∧
      anon.key = some "anon" ∧ admin.key = some "srk" :=
  ⟨by decide,
   anon_and_admin_clients_share_endpoint
      { url := some "https://x.supabase.co", anon_key := some "anon",
        service_role_key := some "srk", jwt_secret := some "jwt",
        database_url := some "postgres://db" } (by decide) (by decide)⟩

/-- C9: importing the client module eagerly evaluates
`create_supabase_client()` at module level: when the process-wide
configuration is invalid the import raises the configuration error, and when
it is valid a global client bound to the configured endpoint and `anon_key`
exists from module initialization on. -/
theorem module_import_eagerly_creates_client (c : SupabaseConfig) :
    (c.validate = false →
      module_level_supabase c = .error "Supabase 配置不完整，请检查环境变量") ∧
    (c.validate = true →
      module_level_supabase c = .ok { url := c.url, key := c.anon_key }) := by
  constructor <;> intro h <;>
    simp [module_level_supabase, create_supabase_client, create_client, h]

/-- Witness for C9: a concrete invalid configuration makes the import fail,
and a concrete valid one yields the global client. -/
theorem module_import_eagerly_creates_client_witness :
    module_level_supabase
        { url := none, anon_key := none, service_role_key := none,
          jwt_secret := none, database_url := none }
      = .error "Supabase 配置不完整，请检查环境变量" ∧
    module_level_supabase
        { url := some "https://x.supabase.co", anon_key := some "anon",
          service_role_key := none, jwt_secret := none, database_url := none }
      = .ok { url := some "https://x.supabase.co", key := some "anon" } :=
  ⟨(module_import_eagerly_creates_client
      { url := none, anon_key := none, service_role_key := none,
        jwt_secret := none, database_url := none }).1 (by decide),
   (module_import_eagerly_creates_client
      { url := some "https://x.supabase.co", anon_key := some "anon",
        service_role_key := none, jwt_secret := none,
        database_url := none }).2 (by decide)⟩

/-- C7: in the table enumeration, a failing probe for an individual name is
never fatal: the enumeration equals the per-name `filterMap` over the fixed
list (so it always returns a list and every other name is processed
normally), the failing name contributes nothing, and no entry for the
failing name appears in the result. -/
theorem table_probe_failure_skipped
    (probe : String → Except String (Option (List Row)))
    (t e : String) (h : probe t = .error e) :
    get_database_tables probe = common_tables.filterMap (probeEntry probe) ∧
    probeEntry probe t = none ∧
    ∀ ti ∈ get_database_tables probe, ti.table_name ≠ t := by
  refine ⟨probeLoop_eq_filterMap probe common_tables,
    by simp [probeEntry, h], ?_⟩
  intro ti hmem heq
  have hmem' : ti ∈ common_tables.filterMap (probeEntry probe) := by
    rw [← probeLoop_eq_filterMap]
    exact hmem
  rw [List.mem_filterMap] at hmem'
  obtain ⟨a, _, ha⟩ := hmem'
  have hname := probeEntry_table_name probe a ti ha
  have hat : a = t := by rw [← hname]; exact heq
  rw [hat] at ha
  simp [probeEntry, h] at ha

/-- Witness for C7: the concrete probe `probeW` raises on `profiles`, yet
the enumeration proceeds and contains no `profiles` entry. -/
theorem table_probe_failure_skipped_witness :
    probeW "profiles" = .error "timeout" ∧
    (get_database_tables probeW = common_tables.filterMap (probeEntry probeW) ∧
     probeEntry probeW "profiles" = none ∧
     ∀ ti ∈ get_database_tables probeW, ti.table_name ≠ "profiles") :=
  ⟨rfl, table_probe_failure_skipped probeW "profiles" "timeout" rfl⟩

/-- C8: the snapshot artifact has exactly the top-level keys `tables`,
`storage_buckets` and `metadata`; `tables` is a list of objects with exactly
the keys `table_name` (a string), `exists` (a boolean) and `sample_data` (a
list of at most one row mapping); `storage_buckets` is a list; `metadata` is
an object with exactly the keys `generated_at` and `note`. -/
theorem snapshot_artifact_shape
    (probe : String → Except String (Option (List Row)))
    (buckets : List Json) :
    (save_database_schema (get_database_tables probe) buckets).objKeys
      = ["tables", "storage_buckets", "metadata"] ∧
    (∃ ts, (save_database_schema (get_database_tables probe) buckets).getKey
        "tables" = some (.arr ts) ∧
      ∀ j ∈ ts, ∃ name b sd, j = Json.obj
          [("table_name", Json.str name), ("exists", Json.bool b),
           ("sample_data", Json.arr sd)] ∧
        sd.length ≤ 1 ∧ ∀ r ∈ sd, ∃ kvs, r = Json.obj kvs) ∧
    (save_database_schema (get_database_tables probe) buckets).getKey
        "storage_buckets" = some (.arr buckets) ∧
    (∃ md, (save_database_schema (get_database_tables probe) buckets).getKey
        "metadata" = some md ∧ md.objKeys = ["generated_at", "note"]) := by
  refine ⟨rfl,
    ⟨(get_database_tables probe).map TableInfo.toJson, by rfl, ?_⟩,
    by rfl,
    ⟨Json.obj [("generated_at", Json.str "2025-12-29"),
               ("note", Json.str "通过Supabase Python SDK获取的基础信息")],
     by rfl, rfl⟩⟩
  intro j hj
  rw [List.mem_map] at hj
  obtain ⟨ti, hti, rfl⟩ := hj
  refine ⟨ti.table_name, ti.existsFlag, ti.sample_data.map Json.obj,
    rfl, ?_, ?_⟩
  · rw [List.length_map]
    have hmem' : ti ∈ common_tables.filterMap (probeEntry probe) := by
      rw [← probeLoop_eq_filterMap]
      exact hti
    rw [List.mem_filterMap] at hmem'
    obtain ⟨a, _, ha⟩ := hmem'
    exact probeEntry_sample_le_one probe a ti ha
  · intro r hr
    rw [List.mem_map] at hr
    obtain ⟨row, _, rfl⟩ := hr
    exact ⟨row, rfl⟩

/-- Witness for C8 at a concrete probe and an empty bucket list. -/
theorem snapshot_artifact_shape_witness :
    (save_database_schema (get_database_tables probeW) []).objKeys
      = ["tables", "storage_buckets", "metadata"] ∧
    (save_database_schema (get_database_tables probeW) []).getKey
        "storage_buckets" = some (.arr []) :=
  ⟨(snapshot_artifact_shape probeW []).1,
   (snapshot_artifact_shape probeW []).2.2.1⟩

/-- C10: `test_supabase_connection` returns `True` for every probe outcome,
including a raised exception, so `main` never aborts at the connection-test
guard. -/
theorem connection_test_always_true {α : Type} (outcome : Except String α) :
    test_supabase_connection outcome = true ∧
    main_aborts_at_connection_test outcome = false := by
  cases outcome <;>
    simp [test_supabase_connection, main_aborts_at_connection_test]

/-- Witness for C10 at a concrete failing probe outcome. -/
theorem connection_test_always_true_witness :
    test_supabase_connection (Except.error "auth failure" : Except String Unit)
      = true ∧
    main_aborts_at_connection_test
        (Except.error "auth failure" : Except String Unit) = false :=
  connection_test_always_true (Except.error "auth failure")
